import Mathlib

/-!
Verification of the historical bar ingestion and scheduling engine
(HistoricalDataFetcher, FetchScheduler, SimpleDatabaseManager save path).

The definitions below are a shallow embedding of the C++ sources:
  src/IQFeedConnection/HistoricalDataFetcher.cpp
  src/IQFeedConnection/FetchScheduler.cpp
  src/database/database_simple.cpp
Machine doubles are modelled as rationals (the parsed values are only
carried through, never computed with), std::string as Lean String, and
the wall clock (std::chrono::system_clock through localtime/mktime) as
integer epoch seconds of a proleptic Gregorian calendar with a fixed
local offset of zero.
-/

namespace Nexday

/-- Substring search on character lists: true when the second list occurs
contiguously inside the first.  Models std::string::find(pat) != npos. -/
def hasSubstrList : List Char → List Char → Bool
  | [], pat => pat.isEmpty
  | hay@(_ :: rest), pat => pat.isPrefixOf hay || hasSubstrList rest pat

/-- Substring search on strings. -/
def hasSubstr (s pat : String) : Bool :=
  hasSubstrList s.data pat.data

/-- Split a character list at every occurrence of the separator
(the separator is dropped).  Models repeated std::getline. -/
def splitOnChar (sep : Char) : List Char → List (List Char)
  | [] => [[]]
  | c :: rest =>
    if c = sep then
      [] :: splitOnChar sep rest
    else
      match splitOnChar sep rest with
      | [] => [[c]]
      | hd :: tl => (c :: hd) :: tl

/-- One OHLCV observation, mirroring struct HistoricalBar
(HistoricalDataFetcher.h lines 13-24).  The field for the opening price is
named open_p because open is a Lean keyword. -/
structure HistoricalBar where
  date : String
  time : String
  open_p : Rat
  high : Rat
  low : Rat
  close : Rat
  volume : Int
  open_interest : Int
deriving DecidableEq, Repr

/-- Default-constructed HistoricalBar: empty strings, all numerics zero
(HistoricalDataFetcher.h line 23). -/
def defaultBar : HistoricalBar :=
  { date := "", time := "", open_p := 0, high := 0, low := 0, close := 0,
    volume := 0, open_interest := 0 }

instance : Inhabited HistoricalBar := ⟨defaultBar⟩

/-- The two virtual constants of a concrete fetcher subclass:
get_interval_code and the period string passed to the base constructor. -/
structure FetcherConfig where
  interval_code : String
  period_name : String
deriving DecidableEq, Repr

/-- DailyDataFetcher.cpp: period "Daily", interval code "DAILY". -/
def DailyDataFetcher_cfg : FetcherConfig := ⟨"DAILY", "Daily"⟩

/-- FifteenMinDataFetcher.cpp: period "15Min", interval code "900". -/
def FifteenMinDataFetcher_cfg : FetcherConfig := ⟨"900", "15Min"⟩

/-- ThirtyMinDataFetcher.cpp: period "30Min", interval code "1800". -/
def ThirtyMinDataFetcher_cfg : FetcherConfig := ⟨"1800", "30Min"⟩

/-- OneHourDataFetcher.cpp: period "1Hour", interval code "3600". -/
def OneHourDataFetcher_cfg : FetcherConfig := ⟨"3600", "1Hour"⟩

/-- TwoHourDataFetcher.cpp: period "2Hour", interval code "7200". -/
def TwoHourDataFetcher_cfg : FetcherConfig := ⟨"7200", "2Hour"⟩

/-- Numeric value of a list of decimal digit characters. -/
def digitsToNat (ds : List Char) : Nat :=
  ds.foldl (fun acc c => acc * 10 + (c.toNat - 48)) 0

/-- Model of std::stod restricted to the decimal forms the feed emits:
an optional sign, then digits with an optional fractional part; none when
no conversion is possible (which in the C++ raises std::invalid_argument).
Longest-prefix behaviour: trailing garbage after a valid prefix is
ignored, exactly as strtod stops at the first invalid character. -/
def stod (s : String) : Option Rat :=
  let l := s.data
  let (neg, l1) :=
    match l with
    | '-' :: rest => (true, rest)
    | '+' :: rest => (false, rest)
    | _ => (false, l)
  let ip := l1.takeWhile (fun c => c.isDigit)
  let rest := l1.dropWhile (fun c => c.isDigit)
  let fp :=
    match rest with
    | '.' :: r => r.takeWhile (fun c => c.isDigit)
    | _ => []
  if ip.isEmpty && fp.isEmpty then none
  else
    let n : Int := (digitsToNat ip * 10 ^ fp.length + digitsToNat fp : Nat)
    some (Rat.divInt (if neg then -n else n) ((10 : Int) ^ fp.length))

/-- Model of std::stoi restricted to decimal forms: optional sign then at
least one digit; none when no conversion is possible. -/
def stoi (s : String) : Option Int :=
  let l := s.data
  let (neg, l1) :=
    match l with
    | '-' :: rest => (true, rest)
    | '+' :: rest => (false, rest)
    | _ => (false, l)
  let ds := l1.takeWhile (fun c => c.isDigit)
  if ds.isEmpty then none
  else
    let v : Int := (digitsToNat ds : Int)
    some (if neg then -v else v)

/-- Recursive worker for split_csv: carries the in_quotes flag, the field
accumulated so far and the fields already produced
(HistoricalDataFetcher.cpp lines 364-387). -/
def split_csv_go : List Char → Bool → List Char → List (List Char) → List (List Char)
  | [], _, field, fields =>
    if field.isEmpty then fields else fields ++ [field]
  | c :: rest, in_quotes, field, fields =>
    if c = '\"' then
      split_csv_go rest (!in_quotes) field fields
    else if c = ',' ∧ in_quotes = false then
      split_csv_go rest in_quotes [] (fields ++ [field])
    else if c ≠ '\r' ∧ c ≠ '\n' then
      split_csv_go rest in_quotes (field ++ [c]) fields
    else
      split_csv_go rest in_quotes field fields

/-- HistoricalDataFetcher::split_csv: comma separation with a quote toggle,
CR and LF dropped, and a trailing empty field not emitted. -/
def split_csv (line : String) : List String :=
  (split_csv_go line.data false [] []).map String.mk

/-- Digits-only string to Nat; none when empty or a non-digit occurs. -/
def parseNatDigits (s : String) : Option Nat :=
  if s.data.isEmpty then none
  else if s.data.all Char.isDigit then some (digitsToNat s.data)
  else none

/-- Julian day number of a proleptic Gregorian date, for years from 1 on
(standard civil-to-JDN formula, exact in Nat arithmetic on that range). -/
def jdn (y m d : Nat) : Nat :=
  let a := (14 - m) / 12
  let y2 := y + 4800 - a
  let m2 := m + 12 * a - 3
  d + (153 * m2 + 2) / 5 + 365 * y2 + y2 / 4 - y2 / 100 + y2 / 400 - 32045

/-- Seconds of a civil datetime on a linear clock: the model of what
mktime produces, with the local timezone fixed at offset zero (every
comparison in the source is between two values converted by the same
localtime/mktime pair, so only this monotone encoding matters). -/
def epochSeconds (y mo d h mi s : Nat) : Nat :=
  jdn y mo d * 86400 + h * 3600 + mi * 60 + s

/-- Model of reading "%Y-%m-%d %H:%M:%S" with std::get_time followed by
mktime (HistoricalDataFetcher.cpp lines 95-105): none models ss.fail(). -/
def parseDateTime (str : String) : Option Nat :=
  match (splitOnChar ' ' str.data).map String.mk with
  | [ds, ts] =>
    match (splitOnChar '-' ds.data).map String.mk,
          (splitOnChar ':' ts.data).map String.mk with
    | [ys, mos, dds], [hs, mis, ss] =>
      match parseNatDigits ys, parseNatDigits mos, parseNatDigits dds,
            parseNatDigits hs, parseNatDigits mis, parseNatDigits ss with
      | some y, some mo, some dd, some h, some mi, some sec =>
        if 1 ≤ y ∧ 1 ≤ mo ∧ mo ≤ 12 ∧ 1 ≤ dd ∧ dd ≤ 31 ∧
           h ≤ 23 ∧ mi ≤ 59 ∧ sec ≤ 59 then
          some (epochSeconds y mo dd h mi sec)
        else none
      | _, _, _, _, _, _ => none
    | _, _ => none
  | _ => none

/-- The interval_minutes if-chain of HistoricalDataFetcher.cpp lines
108-113.  The comparisons are against lowercase period names; a period
name matching none of them (including the capitalised names the five
subclasses actually pass) leaves interval_minutes at 0. -/
def interval_minutes_of (period_name : String) : Int :=
  if period_name = "15min" then 15
  else if period_name = "30min" then 30
  else if period_name = "1hour" then 60
  else if period_name = "2hours" then 120
  else if period_name = "4hours" then 240
  else 0

/-- HistoricalDataFetcher::is_complete_bar (lines 73-146).  Daily: the bar
datetime differs from the current local date string.  Intraday: parse the
start timestamp; on failure return false; otherwise the bar is complete
when the truncated number of minutes between now and the computed bar end
is at least 1 (duration_cast truncates toward zero, as Int.tdiv does). -/
def is_complete_bar (cfg : FetcherConfig) (todayStr : String) (now : Int)
    (datetime_str : String) : Bool :=
  if cfg.interval_code = "DAILY" then
    datetime_str != todayStr
  else
    match parseDateTime datetime_str with
    | none => false
    | some bar_start_time =>
      let bar_end_time : Int := (bar_start_time : Int) + interval_minutes_of cfg.period_name * 60
      let minutes_since_end : Int := Int.tdiv (now - bar_end_time) 60
      decide (1 ≤ minutes_since_end)

/-- Split an intraday datetime field at its first space
(HistoricalDataFetcher.cpp lines 228-235): before the space becomes the
date, everything after the first space becomes the time; with no space
the whole field is the date and the time is empty. -/
def splitAtFirstSpace (s : String) : String × String :=
  match s.data.dropWhile (fun c => c != ' ') with
  | [] => (s, "")
  | _ :: tail => (String.mk (s.data.takeWhile (fun c => c != ' ')), String.mk tail)

/-- The daily branch of the per-line try block (lines 204-218).  none
models a std::stod/std::stoi exception (the line is skipped); with only 7
fields the inner size guard fails, nothing is assigned, and the
default-constructed bar is pushed. -/
def parse_daily_fields (fields : List String) : Option HistoricalBar :=
  if 8 ≤ fields.length then
    match stod (fields.getD 3 ""), stod (fields.getD 4 ""), stod (fields.getD 5 ""),
          stod (fields.getD 6 ""), stoi (fields.getD 7 "") with
    | some hi, some lo, some op, some cl, some vol =>
      if 8 < fields.length then
        match stoi (fields.getD 8 "") with
        | some oi =>
          some { date := fields.getD 2 "", time := "", open_p := op, high := hi,
                 low := lo, close := cl, volume := vol, open_interest := oi }
        | none => none
      else
        some { date := fields.getD 2 "", time := "", open_p := op, high := hi,
               low := lo, close := cl, volume := vol, open_interest := 0 }
    | _, _, _, _, _ => none
  else
    some defaultBar

/-- The intraday branch of the per-line try block (lines 219-249): the
datetime field is split at its first space, OHLCV parsed, open_interest
set to 0; with only 7 fields the inner size guard fails and the
default-constructed bar is pushed. -/
def parse_intraday_fields (fields : List String) : Option HistoricalBar :=
  if 8 ≤ fields.length then
    let dt := splitAtFirstSpace (fields.getD 2 "")
    match stod (fields.getD 3 ""), stod (fields.getD 4 ""), stod (fields.getD 5 ""),
          stod (fields.getD 6 ""), stoi (fields.getD 7 "") with
    | some hi, some lo, some op, some cl, some vol =>
      some { date := dt.1, time := dt.2, open_p := op, high := hi,
             low := lo, close := cl, volume := vol, open_interest := 0 }
    | _, _, _, _, _ => none
  else
    some defaultBar

/-- One iteration of the bar-collection loop body (lines 189-260): skip
empty lines and system lines, split the CSV, require at least 7 fields,
then run the timeframe-specific field parser.  none means no bar is
pushed for this line. -/
def parse_line (cfg : FetcherConfig) (data_line : String) : Option HistoricalBar :=
  if data_line = "" ∨ "S,".data.isPrefixOf data_line.data then none
  else
    let fields := split_csv data_line
    if 7 ≤ fields.length then
      if cfg.interval_code = "DAILY" then parse_daily_fields fields
      else parse_intraday_fields fields
    else none

/-- Line splitting of the raw response (lines 163-171): std::getline on
the newline character, keeping lines that are nonempty, not the lone CR
left by CRLF, and do not contain the end marker. -/
def response_lines (response : String) : List String :=
  ((splitOnChar '\n' response.data).map String.mk).filter
    (fun l => l != "" && l != "\r" && !(hasSubstr l "!ENDMSG!"))

/-- All bars parsed from the raw response, in feed order (newest first):
the all_bars vector after the collection loop of parse_historical_data. -/
def all_bars (cfg : FetcherConfig) (response : String) : List HistoricalBar :=
  (response_lines response).filterMap (parse_line cfg)

/-- HistoricalDataFetcher::parse_historical_data (lines 149-362), with the
clock passed explicitly: todayStr is the "%Y-%m-%d" rendering of the
current local date and now the current time in epoch seconds.  Returns
the C++ pair (return value, contents of the output vector; the vector is
empty at every call site).  An "E," anywhere in the raw response fails
the parse before any line is read.  Daily: keep bars whose date differs
from today.  Intraday: with at least two parsed rows, synthesize the
corrected first bar from the date of row 0 and the time and OHLCV of
row 1, keep it if complete, then keep the complete bars from index 2 on;
with fewer than two rows nothing is emitted.  The returned flag is
data not empty (line 361). -/
def parse_historical_data (cfg : FetcherConfig) (todayStr : String) (now : Int)
    (response : String) : Bool × List HistoricalBar :=
  if hasSubstr response "E," then (false, [])
  else
    let bars := all_bars cfg response
    let data :=
      if cfg.interval_code = "DAILY" then
        bars.filter (fun b => b.date != todayStr)
      else if 2 ≤ bars.length then
        let b0 := bars.getD 0 defaultBar
        let b1 := bars.getD 1 defaultBar
        let corrected_first_bar : HistoricalBar :=
          { date := b0.date, time := b1.time, open_p := b1.open_p, high := b1.high,
            low := b1.low, close := b1.close, volume := b1.volume,
            open_interest := b1.open_interest }
        let first :=
          if is_complete_bar cfg todayStr now (corrected_first_bar.date ++ " " ++ corrected_first_bar.time) then
            [corrected_first_bar]
          else []
        first ++ (bars.drop 2).filter
          (fun b => is_complete_bar cfg todayStr now (b.date ++ " " ++ b.time))
      else []
    (!data.isEmpty, data)

/-- tm_wday of localtime with the zone fixed at offset zero: day 0 of the
epoch was a Thursday, tm_wday counts 0=Sunday (FetchScheduler.cpp 445-449). -/
def get_weekday (now : Nat) : Nat :=
  (now / 86400 + 4) % 7

/-- tm_hour of localtime with the zone fixed at offset zero. -/
def tm_hour (now : Nat) : Nat :=
  now % 86400 / 3600

/-- tm_min of localtime with the zone fixed at offset zero. -/
def tm_min (now : Nat) : Nat :=
  now % 3600 / 60

/-- The fields of struct ScheduleConfig (FetchScheduler.h 26-46) that the
scheduler loop reads. -/
structure ScheduleConfig where
  symbols : List String
  daily_hour : Nat
  daily_minute : Nat
  trading_days : List Nat
deriving DecidableEq, Repr

/-- FetchScheduler::is_trading_day (lines 440-443): the weekday of the
given time is a member of the configured trading-day list. -/
def is_trading_day (config : ScheduleConfig) (now : Nat) : Bool :=
  config.trading_days.contains (get_weekday now)

/-- The is_trading_hour condition of the loop body (lines 218-219): the
hour equals daily_hour exactly and the minute is at least daily_minute. -/
def is_trading_hour (config : ScheduleConfig) (now : Nat) : Bool :=
  (tm_hour now == config.daily_hour) && decide (config.daily_minute ≤ tm_min now)

/-- The five per-timeframe last-run timestamps of scheduler_main_loop
(lines 203-207), in epoch seconds. -/
structure GateTimes where
  last_daily_check : Nat
  last_15min_fetch : Nat
  last_30min_fetch : Nat
  last_1hour_fetch : Nat
  last_2hour_fetch : Nat
deriving DecidableEq, Repr

/-- Which of the five gates fire on one loop iteration. -/
structure GateFires where
  daily : Bool
  m15 : Bool
  m30 : Bool
  h1 : Bool
  h2 : Bool
deriving DecidableEq, Repr

/-- One iteration of the gate evaluation in scheduler_main_loop (lines
209-266): under the trading-day and trading-hour condition each gate
compares now against its own last-run timestamp (24 h, 15, 30, 60 and 120
minutes respectively) and, when it fires, resets that timestamp to now.
Durations are signed, as std::chrono durations are. -/
def scheduler_loop_gates (config : ScheduleConfig) (st : GateTimes) (now : Nat) :
    GateFires × GateTimes :=
  let cond := is_trading_day config now && is_trading_hour config now
  let fire_daily := cond && decide ((24 * 3600 : Int) ≤ (now : Int) - st.last_daily_check)
  let fire_15 := cond && decide ((15 * 60 : Int) ≤ (now : Int) - st.last_15min_fetch)
  let fire_30 := cond && decide ((30 * 60 : Int) ≤ (now : Int) - st.last_30min_fetch)
  let fire_1h := cond && decide ((3600 : Int) ≤ (now : Int) - st.last_1hour_fetch)
  let fire_2h := cond && decide ((2 * 3600 : Int) ≤ (now : Int) - st.last_2hour_fetch)
  (⟨fire_daily, fire_15, fire_30, fire_1h, fire_2h⟩,
   ⟨if fire_daily then now else st.last_daily_check,
    if fire_15 then now else st.last_15min_fetch,
    if fire_30 then now else st.last_30min_fetch,
    if fire_1h then now else st.last_1hour_fetch,
    if fire_2h then now else st.last_2hour_fetch⟩)

/-- True when at least one gate fires. -/
def gate_any (g : GateFires) : Bool :=
  g.daily || g.m15 || g.m30 || g.h1 || g.h2

/-- The conflict target of one database upsert: which table the row goes
to and the column values of its ON CONFLICT key (database_simple.cpp). -/
structure DbUpsertKey where
  table : String
  fetch_date : String
  fetch_time : Option String
  symbol : String
deriving DecidableEq, Repr

/-- SimpleDatabaseManager::insert_historical_data_daily upserts into
historical_fetch_daily with ON CONFLICT (fetch_date, symbol_id)
(database_simple.cpp lines 247-285). -/
def insert_historical_data_daily_key (symbol date : String) : DbUpsertKey :=
  { table := "historical_fetch_daily", fetch_date := date, fetch_time := none,
    symbol := symbol }

/-- SimpleDatabaseManager::insert_historical_data (lines 320-323): the
legacy entry point redirects every call to the daily-table upsert. -/
def insert_historical_data_key (symbol timestamp : String) : DbUpsertKey :=
  insert_historical_data_daily_key symbol timestamp

/-- SimpleDatabaseManager::insert_historical_data_15min upserts into
historical_fetch_15min with ON CONFLICT (fetch_date, fetch_time,
symbol_id) (database_simple.cpp lines 83-122); the 30min/1hour/2hours
variants are identical up to the table name.  Present in the database
layer but never called by the scheduler save path. -/
def insert_historical_data_15min_key (symbol date time : String) : DbUpsertKey :=
  { table := "historical_fetch_15min", fetch_date := date, fetch_time := some time,
    symbol := symbol }

/-- The upsert key the scheduler save path actually uses for one bar:
FetchScheduler::save_historical_bars_to_db (lines 415-428) calls
insert_historical_data(symbol, bar.date, open, high, low, close, volume),
so the stored key never sees the timeframe argument or the time-of-day of
the bar. -/
def save_bar_upsert_key (symbol timeframe : String) (bar : HistoricalBar) : DbUpsertKey :=
  insert_historical_data_key symbol bar.date

/-- The saved/failed counters of save_historical_bars_to_db (lines
412-428), with the per-bar upsert outcome abstracted as a function. -/
def save_counts (upsert : HistoricalBar → Bool) (bars : List HistoricalBar) : Nat × Nat :=
  bars.foldl (fun c bar => if upsert bar then (c.1 + 1, c.2) else (c.1, c.2 + 1)) (0, 0)

/-- FetchScheduler::save_historical_bars_to_db (lines 405-434): an empty
batch returns true immediately; otherwise every bar is attempted and the
call succeeds exactly when the failed counter is zero. -/
def save_historical_bars_to_db (upsert : HistoricalBar → Bool)
    (bars : List HistoricalBar) : Bool :=
  if bars.isEmpty then true
  else (save_counts upsert bars).2 == 0

/-- The success flag recorded by execute_daily_fetch and
execute_intraday_fetch (FetchScheduler.cpp lines 288-331 and 333-399):
successful iff the fetch succeeded and the database save succeeded. -/
def execute_fetch_successful (fetch_ok save_ok : Bool) : Bool :=
  fetch_ok && save_ok

/-- Lexicographic strict ordering of character lists by codepoint. -/
def charListLt : List Char → List Char → Bool
  | [], [] => false
  | [], _ :: _ => true
  | _ :: _, [] => false
  | a :: as, b :: bs =>
    if a.toNat < b.toNat then true
    else if b.toNat < a.toNat then false
    else charListLt as bs

/-- Written from the words of the spec, for comparison with the code:
a daily bar is complete iff its date is strictly earlier than the current
local calendar date (dates in YYYY-MM-DD form compare lexicographically,
which on that shape is calendar order). -/
def spec_daily_complete (todayStr date : String) : Bool :=
  charListLt date.data todayStr.data

/-- Written from the words of the spec, for comparison with the code:
an intraday bar is complete iff now is at or past its start time plus the
interval length plus one minute. -/
def spec_intraday_complete (interval_minutes bar_start now : Int) : Bool :=
  decide (bar_start + interval_minutes * 60 + 60 ≤ now)

/-- Written from the words of the spec, for comparison with the code:
the natural persistence key of a bar is symbol+timeframe+date+time. -/
def spec_natural_key (symbol timeframe : String) (bar : HistoricalBar) :
    String × String × String × String :=
  (symbol, timeframe, bar.date, bar.time)

/-- C4: for every raw response text, if the substring "E," occurs anywhere
in it, parse_historical_data returns failure and the output bar list
contains zero bars, even when well-formed rows precede the error marker. -/
theorem error_marker_fails_parse (cfg : FetcherConfig) (todayStr : String)
    (now : Int) (response : String) (h : hasSubstr response "E," = true) :
    parse_historical_data cfg todayStr now response = (false, []) := by
  unfold parse_historical_data
  simp [h]

/-- Witness for error_marker_fails_parse: a response with a well-formed
daily row before the vendor error line still parses to failure with no
bars. -/
theorem error_marker_fails_parse_witness :
    hasSubstr "AAA_D,LH,2024-01-01,2.0,1.0,1.5,1.8,100,5\r\nE,Invalid symbol\r\n!ENDMSG!\r\n" "E," = true ∧
    parse_historical_data DailyDataFetcher_cfg "2024-01-02" 0
      "AAA_D,LH,2024-01-01,2.0,1.0,1.5,1.8,100,5\r\nE,Invalid symbol\r\n!ENDMSG!\r\n" = (false, []) :=
  ⟨by decide,
   error_marker_fails_parse DailyDataFetcher_cfg "2024-01-02" 0
     "AAA_D,LH,2024-01-01,2.0,1.0,1.5,1.8,100,5\r\nE,Invalid symbol\r\n!ENDMSG!\r\n" (by decide)⟩

/-- C10: for every intraday fetch whose response parses into fewer than
two raw rows, the normalizer emits zero bars and the parse reports
failure, regardless of the content of the rows. -/
theorem intraday_fewer_than_two_rows_fails (cfg : FetcherConfig) (todayStr : String)
    (now : Int) (response : String) (hcfg : cfg.interval_code ≠ "DAILY")
    (hlen : (all_bars cfg response).length < 2) :
    parse_historical_data cfg todayStr now response = (false, []) := by
  unfold parse_historical_data
  rcases hE : hasSubstr response "E," with _ | _
  · simp [hcfg, Nat.not_le.mpr hlen]
  · simp

/-- Witness for intraday_fewer_than_two_rows_fails: a one-row 15-minute
response whose single row is itself a complete bar (the completeness
check on it holds at the given clock) still yields a failed parse with
zero bars. -/
theorem intraday_fewer_than_two_rows_fails_witness :
    parse_historical_data FifteenMinDataFetcher_cfg "x" (epochSeconds 2024 1 2 9 46 30)
      "AAA_15,LH,2024-01-02 09:30:00,101,99,100,100.5,1000,0,0\r\n!ENDMSG!\r\n" = (false, []) ∧
    is_complete_bar FifteenMinDataFetcher_cfg "x" (epochSeconds 2024 1 2 9 46 30)
      "2024-01-02 09:30:00" = true :=
  ⟨intraday_fewer_than_two_rows_fails FifteenMinDataFetcher_cfg "x"
     (epochSeconds 2024 1 2 9 46 30)
     "AAA_15,LH,2024-01-02 09:30:00,101,99,100,100.5,1000,0,0\r\n!ENDMSG!\r\n"
     (by decide) (by decide),
   by decide⟩

/-- C3: the intraday completeness rule of the wired program does not add
the interval length.  The 15-minute fetcher is constructed with period
name "15Min" (FifteenMinDataFetcher.cpp line 4), which matches none of
the lowercase comparisons in HistoricalDataFetcher.cpp lines 109-113, so
interval_minutes stays 0 and a 15-minute bar starting 09:30:00 is already
judged complete at 09:31:30, where the specified rule
(now at or past start + 15 min + 1 min) says incomplete.  With the
lowercase period name the code would agree with the specified rule. -/
theorem intraday_completeness_ignores_interval :
    is_complete_bar FifteenMinDataFetcher_cfg "" (epochSeconds 2024 1 2 9 31 30)
      "2024-01-02 09:30:00" = true ∧
    interval_minutes_of FifteenMinDataFetcher_cfg.period_name = 0 ∧
    spec_intraday_complete 15 (epochSeconds 2024 1 2 9 30 0)
      (epochSeconds 2024 1 2 9 31 30) = false ∧
    is_complete_bar ⟨"900", "15min"⟩ "" (epochSeconds 2024 1 2 9 31 30)
      "2024-01-02 09:30:00" = false ∧
    is_complete_bar ⟨"900", "15min"⟩ "" (epochSeconds 2024 1 2 9 46 0)
      "2024-01-02 09:30:00" = true := by
  decide

/-- Counterexample to C2 as stated: the daily filter keeps every bar
whose date string differs from today, not only the strictly earlier
ones.  A bar dated 2024-01-03 parsed when today is 2024-01-02 is
retained, yet it is not strictly earlier than today. -/
theorem daily_strictly_earlier_counterexample :
    (parse_historical_data DailyDataFetcher_cfg "2024-01-02" 0
      "AAA_D,LH,2024-01-03,2.0,1.0,1.5,1.8,100,5\r\n!ENDMSG!\r\n").2.map (fun b => b.date) =
      ["2024-01-03"] ∧
    spec_daily_complete "2024-01-02" "2024-01-03" = false := by
  decide

/-- C2 amended: a parsed daily bar is retained iff its date string
differs from the current local calendar date (so a bar dated today is
always filtered out, but a bar dated after today is retained too). -/
theorem daily_bar_retained_iff_date_differs (todayStr : String) (now : Int)
    (response : String) (hE : hasSubstr response "E," = false) (b : HistoricalBar) :
    b ∈ (parse_historical_data DailyDataFetcher_cfg todayStr now response).2 ↔
      b ∈ all_bars DailyDataFetcher_cfg response ∧ b.date ≠ todayStr := by
  unfold parse_historical_data
  simp [hE, List.mem_filter, DailyDataFetcher_cfg]

/-- Witness for daily_bar_retained_iff_date_differs: the concrete parsed
bar dated 2024-01-03 is in the output when today is 2024-01-04. -/
theorem daily_bar_retained_iff_date_differs_witness :
    (all_bars DailyDataFetcher_cfg "AAA_D,LH,2024-01-03,2.0,1.0,1.5,1.8,100,5\r\n!ENDMSG!\r\n").getD 0 defaultBar ∈
      (parse_historical_data DailyDataFetcher_cfg "2024-01-04" 0
        "AAA_D,LH,2024-01-03,2.0,1.0,1.5,1.8,100,5\r\n!ENDMSG!\r\n").2 :=
  (daily_bar_retained_iff_date_differs "2024-01-04" 0
    "AAA_D,LH,2024-01-03,2.0,1.0,1.5,1.8,100,5\r\n!ENDMSG!\r\n" (by decide) _).mpr
    ⟨by decide, by decide⟩

/-- Counterexample to C7 as stated: a daily record with exactly 7 fields
is below the 8-field minimum the daily layout needs, yet it is not
skipped — the inner size guard fails, nothing is assigned, and the
default-constructed bar is pushed, which the daily filter then retains
(its empty date differs from today).  The output holds one bar, not
zero. -/
theorem min_fields_counterexample :
    (split_csv "AAA_D,LH,2024-01-03,1.0,2.0,3.0,4.0").length = 7 ∧
    (parse_historical_data DailyDataFetcher_cfg "2024-01-02" 0
      "AAA_D,LH,2024-01-03,1.0,2.0,3.0,4.0\r\n!ENDMSG!\r\n").2 = [defaultBar] := by
  decide

/-- C7 amended: a record with fewer than 7 fields is skipped and
contributes no bar; a record with exactly 7 fields (below the 8 needed to
populate either layout) is not skipped but contributes a
default-constructed bar; a line whose numeric fields fail to parse is
skipped while parsing of the remaining lines continues. -/
theorem line_skipping_amended :
    (∀ (cfg : FetcherConfig) (line : String),
      (split_csv line).length < 7 → parse_line cfg line = none) ∧
    (∀ (cfg : FetcherConfig) (line : String),
      line ≠ "" → ("S,".data.isPrefixOf line.data) = false →
      (split_csv line).length = 7 → parse_line cfg line = some defaultBar) ∧
    (∀ (cfg : FetcherConfig) (l1 l2 : List String) (bad : String),
      parse_line cfg bad = none →
      (l1 ++ bad :: l2).filterMap (parse_line cfg) =
        (l1 ++ l2).filterMap (parse_line cfg)) := by
  refine ⟨?_, ?_, ?_⟩
  · intro cfg line h
    unfold parse_line
    split
    · rfl
    · rw [if_neg (by omega)]
  · intro cfg line h1 h2 h3
    unfold parse_line
    rw [if_neg (by simp [h1, h2])]
    rw [if_pos (by omega)]
    unfold parse_daily_fields parse_intraday_fields
    split <;> rw [if_neg (by omega)]
  · intro cfg l1 l2 bad hbad
    simp [List.filterMap_append, List.filterMap_cons, hbad]

/-- Witness for line_skipping_amended: a 3-field line is skipped, a
7-field daily line contributes the default bar, and a 9-field line whose
high field is not numeric is skipped while the surrounding lines still
parse. -/
theorem line_skipping_amended_witness :
    parse_line DailyDataFetcher_cfg "A,B,C" = none ∧
    parse_line DailyDataFetcher_cfg "AAA_D,LH,2024-01-03,1.0,2.0,3.0,4.0" = some defaultBar ∧
    (["AAA_D,LH,2024-01-01,2.0,1.0,1.5,1.8,100,5"] ++
        "AAA_D,LH,2024-01-02,bad,1.0,1.5,1.8,100,5" ::
          ["AAA_D,LH,2024-01-03,2.0,1.0,1.5,1.8,100,5"]).filterMap
        (parse_line DailyDataFetcher_cfg) =
      (["AAA_D,LH,2024-01-01,2.0,1.0,1.5,1.8,100,5"] ++
        ["AAA_D,LH,2024-01-03,2.0,1.0,1.5,1.8,100,5"]).filterMap
        (parse_line DailyDataFetcher_cfg) :=
  ⟨line_skipping_amended.1 DailyDataFetcher_cfg "A,B,C" (by decide),
   line_skipping_amended.2.1 DailyDataFetcher_cfg "AAA_D,LH,2024-01-03,1.0,2.0,3.0,4.0"
     (by decide) (by decide) (by decide),
   line_skipping_amended.2.2 DailyDataFetcher_cfg
     ["AAA_D,LH,2024-01-01,2.0,1.0,1.5,1.8,100,5"]
     ["AAA_D,LH,2024-01-03,2.0,1.0,1.5,1.8,100,5"]
     "AAA_D,LH,2024-01-02,bad,1.0,1.5,1.8,100,5" (by decide)⟩

/-- Counting helper: the saved/failed counters equal the lengths of the
success and failure sublists of the batch. -/
theorem save_counts_eq (upsert : HistoricalBar → Bool) (bars : List HistoricalBar) :
    save_counts upsert bars =
      ((bars.filter (fun b => upsert b)).length,
       (bars.filter (fun b => !upsert b)).length) := by
  have key : ∀ (l : List HistoricalBar) (s f : Nat),
      l.foldl (fun c bar => if upsert bar then (c.1 + 1, c.2) else (c.1, c.2 + 1)) (s, f) =
        (s + (l.filter (fun b => upsert b)).length,
         f + (l.filter (fun b => !upsert b)).length) := by
    intro l
    induction l with
    | nil => intro s f; simp
    | cons hd tl ih =>
      intro s f
      by_cases hu : upsert hd = true <;>
        simp [List.filter_cons, hu, ih] <;> omega
  simpa using key bars 0 0

/-- C9: for every non-empty batch, every bar is attempted (the two
counters always sum to the batch length, a failed upsert only increments
the failed counter), and the overall save reports failure iff at least
one bar failed to persist. -/
theorem save_fails_iff_some_bar_fails (upsert : HistoricalBar → Bool)
    (bars : List HistoricalBar) (h : bars ≠ []) :
    (save_historical_bars_to_db upsert bars = false ↔ ∃ b ∈ bars, upsert b = false) ∧
    (save_counts upsert bars).1 + (save_counts upsert bars).2 = bars.length := by
  constructor
  · unfold save_historical_bars_to_db
    rw [if_neg (by simpa using h), save_counts_eq]
    simp [List.filter_eq_nil_iff]
  · rw [save_counts_eq]
    simpa using (List.length_eq_length_filter_add (l := bars) (fun b => upsert b)).symm

/-- Witness for save_fails_iff_some_bar_fails: a two-bar batch in which
the second upsert fails makes the whole save report failure. -/
theorem save_fails_iff_some_bar_fails_witness :
    save_historical_bars_to_db (fun b => b.date != "BAD")
      [defaultBar, { defaultBar with date := "BAD" }] = false :=
  ((save_fails_iff_some_bar_fails (fun b => b.date != "BAD")
      [defaultBar, { defaultBar with date := "BAD" }] (by decide)).1).mpr
    ⟨{ defaultBar with date := "BAD" }, by decide, by decide⟩

/-- C5: a per-timeframe gate can fire on a loop iteration only when the
weekday of now is in the configured trading-day set and the local time is
at or after the configured daily hour:minute (the code demands the even
stronger hour equality); consequently with trading days Sun..Thu an
iteration evaluated on a Friday fires no gate, whatever the last-run
timestamps are. -/
theorem gate_requires_trading_window :
    (∀ (config : ScheduleConfig) (st : GateTimes) (now : Nat),
      gate_any (scheduler_loop_gates config st now).1 = true →
        is_trading_day config now = true ∧
        (config.daily_hour < tm_hour now ∨
          (tm_hour now = config.daily_hour ∧ config.daily_minute ≤ tm_min now))) ∧
    (∀ (syms : List String) (dh dm : Nat) (st : GateTimes) (now : Nat),
      get_weekday now = 5 →
      gate_any (scheduler_loop_gates ⟨syms, dh, dm, [0, 1, 2, 3, 4]⟩ st now).1 = false) := by
  constructor
  · intro config st now h
    have hcond : (is_trading_day config now && is_trading_hour config now) = true := by
      cases hx : (is_trading_day config now && is_trading_hour config now) with
      | true => rfl
      | false =>
        exfalso
        simp [scheduler_loop_gates, gate_any, hx] at h
    rw [Bool.and_eq_true] at hcond
    refine ⟨hcond.1, Or.inr ?_⟩
    have hh := hcond.2
    rw [is_trading_hour, Bool.and_eq_true] at hh
    exact ⟨by simpa using hh.1, of_decide_eq_true hh.2⟩
  · intro syms dh dm st now hw
    have htd : is_trading_day ⟨syms, dh, dm, [0, 1, 2, 3, 4]⟩ now = false := by
      show ([0, 1, 2, 3, 4].contains (get_weekday now)) = false
      rw [hw]
      decide
    simp [scheduler_loop_gates, gate_any, htd]

/-- Witness for gate_requires_trading_window: at epoch second 327600
(a Sunday, 19:00 local) with the default Sun..Thu 19:00 configuration and
zeroed last-run timestamps a gate fires and the window conditions hold;
at epoch second 86400 (a Friday) no gate fires. -/
theorem gate_requires_trading_window_witness :
    (is_trading_day ⟨["QGC#"], 19, 0, [0, 1, 2, 3, 4]⟩ 327600 = true ∧
      (19 < tm_hour 327600 ∨ (tm_hour 327600 = 19 ∧ 0 ≤ tm_min 327600))) ∧
    gate_any (scheduler_loop_gates ⟨["QGC#"], 19, 0, [0, 1, 2, 3, 4]⟩
      ⟨0, 0, 0, 0, 0⟩ 86400).1 = false :=
  ⟨gate_requires_trading_window.1 ⟨["QGC#"], 19, 0, [0, 1, 2, 3, 4]⟩
     ⟨0, 0, 0, 0, 0⟩ 327600 (by decide),
   gate_requires_trading_window.2 ["QGC#"] 19 0 ⟨0, 0, 0, 0, 0⟩ 86400 (by decide)⟩

/-- C6: on an iteration whose trading-day and trading-hour condition
holds, the five gates are evaluated independently: each fires exactly
when its own interval (24 h, 15, 30, 60, 120 minutes) has elapsed since
its own last-run timestamp, whatever the other timestamps are. -/
theorem gates_fire_independently (config : ScheduleConfig) (st : GateTimes) (now : Nat)
    (hcond : (is_trading_day config now && is_trading_hour config now) = true) :
    (scheduler_loop_gates config st now).1.daily =
      decide ((24 * 3600 : Int) ≤ (now : Int) - st.last_daily_check) ∧
    (scheduler_loop_gates config st now).1.m15 =
      decide ((15 * 60 : Int) ≤ (now : Int) - st.last_15min_fetch) ∧
    (scheduler_loop_gates config st now).1.m30 =
      decide ((30 * 60 : Int) ≤ (now : Int) - st.last_30min_fetch) ∧
    (scheduler_loop_gates config st now).1.h1 =
      decide ((3600 : Int) ≤ (now : Int) - st.last_1hour_fetch) ∧
    (scheduler_loop_gates config st now).1.h2 =
      decide ((2 * 3600 : Int) ≤ (now : Int) - st.last_2hour_fetch) := by
  simp [scheduler_loop_gates, hcond]

/-- Witness for gates_fire_independently: all last-run timestamps equal
to 326700 and now 327600 (Sunday 19:00, exactly 15 minutes later) fire
the 15-minute gate and no other. -/
theorem gates_fire_independently_witness :
    (scheduler_loop_gates ⟨["QGC#"], 19, 0, [0, 1, 2, 3, 4]⟩
        ⟨326700, 326700, 326700, 326700, 326700⟩ 327600).1.m15 = true ∧
    (scheduler_loop_gates ⟨["QGC#"], 19, 0, [0, 1, 2, 3, 4]⟩
        ⟨326700, 326700, 326700, 326700, 326700⟩ 327600).1.m30 = false ∧
    (scheduler_loop_gates ⟨["QGC#"], 19, 0, [0, 1, 2, 3, 4]⟩
        ⟨326700, 326700, 326700, 326700, 326700⟩ 327600).1.h1 = false ∧
    (scheduler_loop_gates ⟨["QGC#"], 19, 0, [0, 1, 2, 3, 4]⟩
        ⟨326700, 326700, 326700, 326700, 326700⟩ 327600).1.h2 = false ∧
    (scheduler_loop_gates ⟨["QGC#"], 19, 0, [0, 1, 2, 3, 4]⟩
        ⟨326700, 326700, 326700, 326700, 326700⟩ 327600).1.daily = false := by
  have h := gates_fire_independently ⟨["QGC#"], 19, 0, [0, 1, 2, 3, 4]⟩
    ⟨326700, 326700, 326700, 326700, 326700⟩ 327600 (by decide)
  exact ⟨h.2.1.trans (by decide), h.2.2.1.trans (by decide),
    h.2.2.2.1.trans (by decide), h.2.2.2.2.trans (by decide), h.1.trans (by decide)⟩

/-- Counterexample to C1 as stated: with a 15-minute response whose two
rows are stamped 09:30:00 and 09:15:00, the emitted bar at position 0
carries the time-of-day 09:15:00 of input row 1, not the 09:30:00 of
input row 0 — the correction takes only the date from row 0
(HistoricalDataFetcher.cpp lines 315-316 set date from bar 0 but time
from bar 1). -/
theorem intraday_first_bar_counterexample :
    (all_bars FifteenMinDataFetcher_cfg
      "AAA_15,LH,2024-01-02 09:30:00,101,99,100,100.5,1000,0,0\r\nAAA_15,LH,2024-01-02 09:15:00,99,97,98,98.5,900,0,0\r\n!ENDMSG!\r\n").map
        (fun b => b.time) = ["09:30:00", "09:15:00"] ∧
    ((parse_historical_data FifteenMinDataFetcher_cfg "x" (epochSeconds 2024 1 2 9 46 30)
      "AAA_15,LH,2024-01-02 09:30:00,101,99,100,100.5,1000,0,0\r\nAAA_15,LH,2024-01-02 09:15:00,99,97,98,98.5,900,0,0\r\n!ENDMSG!\r\n").2).map
        (fun b => b.time) = ["09:15:00"] := by
  decide

/-- C1 amended: for every intraday response with at least two parsed rows
whose synthesized first bar passes the completeness check, the emitted
bar at position 0 carries the date of input row 0 and the time-of-day and
OHLCV of input row 1, and the rows from index 2 onward that pass the
completeness check are emitted unmodified, in order. -/
theorem intraday_first_bar_correction (cfg : FetcherConfig) (todayStr : String)
    (now : Int) (response : String)
    (hcfg : cfg.interval_code ≠ "DAILY")
    (hE : hasSubstr response "E," = false)
    (hlen : 2 ≤ (all_bars cfg response).length)
    (hfirst : is_complete_bar cfg todayStr now
      (((all_bars cfg response).getD 0 defaultBar).date ++ " " ++
        ((all_bars cfg response).getD 1 defaultBar).time) = true) :
    (parse_historical_data cfg todayStr now response).2 =
      { date := ((all_bars cfg response).getD 0 defaultBar).date,
        time := ((all_bars cfg response).getD 1 defaultBar).time,
        open_p := ((all_bars cfg response).getD 1 defaultBar).open_p,
        high := ((all_bars cfg response).getD 1 defaultBar).high,
        low := ((all_bars cfg response).getD 1 defaultBar).low,
        close := ((all_bars cfg response).getD 1 defaultBar).close,
        volume := ((all_bars cfg response).getD 1 defaultBar).volume,
        open_interest := ((all_bars cfg response).getD 1 defaultBar).open_interest } ::
      ((all_bars cfg response).drop 2).filter
        (fun b => is_complete_bar cfg todayStr now (b.date ++ " " ++ b.time)) := by
  unfold parse_historical_data
  have hfirst2 : is_complete_bar cfg todayStr now
      (((all_bars cfg response)[0]?.getD defaultBar).date ++ " " ++
        ((all_bars cfg response)[1]?.getD defaultBar).time) = true := by
    simpa [List.getD] using hfirst
  simp [hE, hcfg, hlen, hfirst2]

/-- Witness for intraday_first_bar_correction at the concrete two-row
15-minute response: the single emitted bar is dated from row 0 and takes
time and OHLCV from row 1. -/
theorem intraday_first_bar_correction_witness :
    (parse_historical_data FifteenMinDataFetcher_cfg "x" (epochSeconds 2024 1 2 9 46 30)
      "AAA_15,LH,2024-01-02 09:30:00,101,99,100,100.5,1000,0,0\r\nAAA_15,LH,2024-01-02 09:15:00,99,97,98,98.5,900,0,0\r\n!ENDMSG!\r\n").2 =
      [{ date := "2024-01-02", time := "09:15:00", open_p := 98, high := 99,
         low := 97, close := Rat.divInt 197 2, volume := 900, open_interest := 0 }] := by
  have h := intraday_first_bar_correction FifteenMinDataFetcher_cfg "x"
    (epochSeconds 2024 1 2 9 46 30)
    "AAA_15,LH,2024-01-02 09:30:00,101,99,100,100.5,1000,0,0\r\nAAA_15,LH,2024-01-02 09:15:00,99,97,98,98.5,900,0,0\r\n!ENDMSG!\r\n"
    (by decide) (by decide) (by decide) (by decide)
  exact h.trans (by decide)

/-- C8: the scheduler save path does not store bars per timeframe.  Bars
of different timeframes, or of different times within one day, are upserted
to the same conflict key: save_historical_bars_to_db hands every bar to
the legacy insert_historical_data, which targets the daily table keyed on
(fetch_date, symbol_id) only, although per-timeframe upserts keyed on
(fetch_date, fetch_time, symbol_id) exist in the database layer. -/
theorem save_path_ignores_timeframe_and_time :
    save_bar_upsert_key "AAPL" "15min"
        { defaultBar with date := "2024-01-02", time := "09:15:00" } =
      save_bar_upsert_key "AAPL" "2hours"
        { defaultBar with date := "2024-01-02", time := "10:00:00" } ∧
    save_bar_upsert_key "AAPL" "15min"
        { defaultBar with date := "2024-01-02", time := "09:15:00" } =
      { table := "historical_fetch_daily", fetch_date := "2024-01-02",
        fetch_time := none, symbol := "AAPL" } ∧
    spec_natural_key "AAPL" "15min"
        { defaultBar with date := "2024-01-02", time := "09:15:00" } ≠
      spec_natural_key "AAPL" "2hours"
        { defaultBar with date := "2024-01-02", time := "10:00:00" } ∧
    insert_historical_data_15min_key "AAPL" "2024-01-02" "09:15:00" ≠
      insert_historical_data_15min_key "AAPL" "2024-01-02" "10:00:00" := by
  decide

end Nexday
